import Mathlib

/-!
Verification of the vision-ocr repository against its specification.

The frontend model embeds `src/frontend/src/App.tsx`; the backend
execution environment embeds the Dockerfile (`src/unnamed/part_000`).
The server-side extraction orchestrator (`main.py`) is not part of the
provided sources, so it is modelled from the specification where a claim
needs it.
-/

namespace VisionOCR

/-! ### Frontend data model (App.tsx state) -/

/-- A clipboard blob: declared MIME type plus an abstract content identity. -/
structure Blob where
  type : String
  data : Nat
deriving DecidableEq, Repr

/-- A browser `File`: name, declared MIME type, abstract content identity. -/
structure FileModel where
  name : String
  type : String
  data : Nat
deriving DecidableEq, Repr

/-- The React state of `App` that the claims are about:
`file`, `extractedText`, `loading`, `progress` (App.tsx lines 39-42). -/
structure AppState where
  file : Option FileModel
  extractedText : String
  loading : Bool
  progress : Nat
deriving DecidableEq, Repr

/-- The accepted MIME types of `validateAndSetFile` (App.tsx lines 123-129). -/
def validTypes : List String :=
  ["image/png", "image/jpeg", "application/pdf", "image/bmp", "image/tiff"]

/-- The alert text shown for an unsupported file type (App.tsx lines 134-136). -/
def unsupportedAlertMsg : String :=
  "지원되지 않는 파일 형식입니다. (PNG, JPG, PDF, BMP, TIFF 만 가능)"

/-- Result of `validateAndSetFile`: the new state plus the alert raised, if any. -/
structure ValidateResult where
  state : AppState
  alert : Option String
deriving DecidableEq, Repr

/-- Embedding of `validateAndSetFile` (App.tsx lines 122-138): if the file's
declared type is in `validTypes`, select it and clear the extracted text;
otherwise raise an alert and change nothing. -/
def validateAndSetFile (s : AppState) (f : FileModel) : ValidateResult :=
  if validTypes.contains f.type then
    ⟨{ s with file := some f, extractedText := "" }, none⟩
  else
    ⟨s, some unsupportedAlertMsg⟩

/-! ### performOCR (App.tsx lines 146-173) -/

/-- One HTTP request as issued by `fetch` in `performOCR`: method, URL, and
the file carried in the `file` field of the multipart form data. -/
structure Request where
  method : String
  url : String
  fileField : FileModel
deriving DecidableEq, Repr

/-- The outcome of the `fetch` call, as seen by `performOCR`: either a network
error (the promise rejects), or an HTTP response with its `ok` flag, the
`text` field of its JSON body, and the error code of its JSON body on fatal
failure (which the frontend never reads). -/
inductive FetchOutcome where
  | networkError : FetchOutcome
  | resp (ok : Bool) (textField : String) (errorCode : String) : FetchOutcome
deriving DecidableEq, Repr

/-- The error toast text of `performOCR` (App.tsx lines 166-169). -/
def ocrErrorToastMsg : String := "텍스트 추출 중 오류가 발생했습니다."

/-- Result of one `performOCR` run: final state, the HTTP requests issued,
and the toast emitted, if any. -/
structure OCRResult where
  state : AppState
  requests : List Request
  toast : Option String
deriving DecidableEq, Repr

/-- Embedding of `performOCR` (App.tsx lines 146-173). With no selected file
it returns immediately. Otherwise it issues one POST to `/extract-text`
carrying the file as form data; on an `ok` response it stores the JSON `text`
field as the extracted text, on a network error or a non-ok response it
emits the generic error toast and leaves the extracted text unchanged.
`loading` is reset in the `finally` block on every path. -/
def performOCR (api : String) (s : AppState) (o : FetchOutcome) : OCRResult :=
  match s.file with
  | none => ⟨s, [], none⟩
  | some f =>
    let req : Request := ⟨"POST", api ++ "/extract-text", f⟩
    match o with
    | .networkError => ⟨{ s with loading := false }, [req], some ocrErrorToastMsg⟩
    | .resp ok text _err =>
      if ok then ⟨{ s with extractedText := text, loading := false }, [req], none⟩
      else ⟨{ s with loading := false }, [req], some ocrErrorToastMsg⟩

/-! ### Progress animation (App.tsx lines 61-75) -/

/-- Embedding of one timer tick of the progress animation (App.tsx lines
66-69): `r` models `Math.floor(Math.random() * 10)`, a value in `0..9`.
If the current value is at least 95 it is kept, otherwise `r + 1` (a value
in `1..10`) is added. -/
def progressTick (prev r : Nat) : Nat :=
  if 95 ≤ prev then prev else prev + r + 1

/-- The timer period of the progress animation in milliseconds
(App.tsx line 70). -/
def progressIntervalMs : Nat := 500

/-- The value `setProgress` receives when `loading` becomes true
(App.tsx line 64). -/
def progressOnLoadingStart : Nat := 0

/-- The value `setProgress` receives when `loading` becomes false
(App.tsx line 72). -/
def progressOnLoadingEnd : Nat := 100

/-! ### Clipboard paste handler (App.tsx lines 78-104) -/

/-- One entry of `e.clipboardData.items`: its declared type and the result
of `getAsFile()` (which is null for non-file items). -/
structure ClipboardItem where
  type : String
  file : Option Blob
deriving DecidableEq, Repr

/-- `startsWithList needle hay` holds when `needle` is an initial segment
of `hay`. -/
def startsWithList : List Char → List Char → Bool
  | [], _ => true
  | _ :: _, [] => false
  | a :: as, b :: bs => a = b && startsWithList as bs

/-- `hasSubList needle hay`: `needle` occurs contiguously inside `hay`;
this is the semantics of JavaScript `hay.indexOf(needle) !== -1`. -/
def hasSubList (needle : List Char) : List Char → Bool
  | [] => startsWithList needle []
  | c :: cs => startsWithList needle (c :: cs) || hasSubList needle cs

/-- The test `items[i].type.indexOf("image") !== -1` (App.tsx line 84). -/
def typeHasImage (t : String) : Bool :=
  hasSubList "image".toList t.toList

/-- The `File` constructed from a pasted blob (App.tsx lines 88-94): named
`pasted_image_<timestamp>.png` and carrying the blob's own MIME type. -/
def mkPastedFile (ts : Nat) (b : Blob) : FileModel :=
  ⟨"pasted_image_" ++ toString ts ++ ".png", b.type, b.data⟩

/-- Embedding of `handlePaste` (App.tsx lines 79-100): scan the clipboard
items in order; at an item whose type contains `"image"`, take its file —
if it is non-null, wrap it via `mkPastedFile`, run `validateAndSetFile`
and stop; if `getAsFile()` returned null, the loop continues with the next
item (the `break` sits inside `if (blob)`). -/
def handlePaste (s : AppState) (ts : Nat) : List ClipboardItem → ValidateResult
  | [] => ⟨s, none⟩
  | it :: rest =>
    if typeHasImage it.type then
      match it.file with
      | some b => validateAndSetFile s (mkPastedFile ts b)
      | none => handlePaste s ts rest
    else handlePaste s ts rest

/-! ### Backend execution environment (Dockerfile, src/unnamed/part_000) -/

/-- The Debian packages installed by the backend Dockerfile's `apt-get
install` (src/unnamed/part_000 lines 5-12). -/
def aptInstalledPackages : List String :=
  ["tesseract-ocr", "tesseract-ocr-kor", "tesseract-ocr-eng",
   "libtesseract-dev", "poppler-utils"]

/-- The OCR language packs among the installed packages: the packages of
the form `tesseract-ocr-<lang>`, reduced to their language code. -/
def installedLanguagePacks : List String :=
  (aptInstalledPackages.filter
      (fun p => startsWithList "tesseract-ocr-".toList p.toList)).map
    (fun p => p.drop 14)

/-! ### Server-side extraction pipeline, modelled from the spec -/

/-- Modelled from the spec: the per-page outcome fed to the orchestrator —
the page either rasterizes and OCRs to some text, or its rasterization
fails, or its OCR fails (`main.py` is not among the provided sources; this
follows spec §4.2-§4.4). -/
inductive PageOutcome where
  | ok (text : String) : PageOutcome
  | rasterFail : PageOutcome
  | ocrFail : PageOutcome
deriving DecidableEq, Repr

/-- Modelled from the spec: a `PageResult` — page index, recognized text
(empty on failure) and a success flag (spec §3). -/
structure PageResult where
  index : Nat
  text : String
  ok : Bool
deriving DecidableEq, Repr

/-- Modelled from the spec: the fatal request-level errors (spec §7). -/
inductive FatalError where
  | unsupportedFormat : FatalError
  | corruptDocument : FatalError
deriving DecidableEq, Repr

/-- Modelled from the spec: an `ExtractionResult` — the ordered page
results plus the derived aggregated text (spec §3, §4.4). -/
structure ExtractionResult where
  pages : List PageResult
  text : String
deriving DecidableEq, Repr

/-- Modelled from the spec: a failed page contributes the empty string to
the aggregation; a successful page contributes its text (spec §4.4 step 4). -/
def pageContribution (r : PageResult) : String :=
  if r.ok then r.text else ""

/-- Modelled from the spec: the `PageResult` produced for page `i`
(spec §4.4 steps 2-3: a per-page rasterization or OCR failure yields a
failed `PageResult` with empty text and the loop continues). -/
def runPage (i : Nat) : PageOutcome → PageResult
  | .ok t => ⟨i, t, true⟩
  | .rasterFail => ⟨i, "", false⟩
  | .ocrFail => ⟨i, "", false⟩

/-- Modelled from the spec: run the per-page loop starting at index `i`. -/
def runPages (i : Nat) : List PageOutcome → List PageResult
  | [] => []
  | o :: os => runPage i o :: runPages (i + 1) os

/-- Modelled from the spec: aggregation (spec §4.4 step 4) — join the page
contributions in index order with a single newline separator. -/
def aggregate (rs : List PageResult) : String :=
  String.intercalate "\n" (rs.map pageContribution)

/-- Modelled from the spec: how the upload was classified (spec §4.1). -/
inductive Classified where
  | image : Classified
  | pdfDocument : Classified
  | unsupported : Classified
deriving DecidableEq, Repr

/-- Modelled from the spec: what the rasterizer produced — a fatal
`CorruptDocument`, or the ordered per-page outcomes (spec §4.2). -/
inductive RasterOutcome where
  | corrupt : RasterOutcome
  | pages (os : List PageOutcome) : RasterOutcome
deriving DecidableEq, Repr

/-- Modelled from the spec: the extraction orchestrator (spec §4.4) —
abort on `Unsupported` or `CorruptDocument`, otherwise run every page and
aggregate; per-page failures never abort the request. -/
def orchestrate (c : Classified) (r : RasterOutcome) :
    Except FatalError ExtractionResult :=
  match c with
  | .unsupported => .error .unsupportedFormat
  | _ =>
    match r with
    | .corrupt => .error .corruptDocument
    | .pages os =>
      let rs := runPages 0 os
      .ok ⟨rs, aggregate rs⟩

/-! ### Helper lemmas -/

theorem validateAndSetFile_of_mem (s : AppState) (f : FileModel)
    (h : f.type ∈ validTypes) :
    validateAndSetFile s f =
      ⟨{ s with file := some f, extractedText := "" }, none⟩ := by
  unfold validateAndSetFile
  rw [if_pos]
  simpa using h

theorem validateAndSetFile_of_not_mem (s : AppState) (f : FileModel)
    (h : f.type ∉ validTypes) :
    validateAndSetFile s f = ⟨s, some unsupportedAlertMsg⟩ := by
  unfold validateAndSetFile
  rw [if_neg]
  simpa using h

theorem performOCR_eq_of_none (api : String) (s : AppState) (o : FetchOutcome)
    (h : s.file = none) : performOCR api s o = ⟨s, [], none⟩ := by
  simp [performOCR, h]

theorem performOCR_eq_of_net (api : String) (s : AppState) (f : FileModel)
    (h : s.file = some f) :
    performOCR api s .networkError =
      ⟨{ s with loading := false }, [⟨"POST", api ++ "/extract-text", f⟩],
        some ocrErrorToastMsg⟩ := by
  simp [performOCR, h]

theorem performOCR_eq_of_ok (api : String) (s : AppState) (f : FileModel)
    (t e : String) (h : s.file = some f) :
    performOCR api s (.resp true t e) =
      ⟨{ s with extractedText := t, loading := false },
        [⟨"POST", api ++ "/extract-text", f⟩], none⟩ := by
  simp [performOCR, h]

theorem performOCR_eq_of_fail (api : String) (s : AppState) (f : FileModel)
    (t e : String) (h : s.file = some f) :
    performOCR api s (.resp false t e) =
      ⟨{ s with loading := false }, [⟨"POST", api ++ "/extract-text", f⟩],
        some ocrErrorToastMsg⟩ := by
  simp [performOCR, h]

theorem performOCR_requests_eq (api : String) (s : AppState) (o : FetchOutcome) :
    (performOCR api s o).requests =
      match s.file with
      | none => []
      | some f => [⟨"POST", api ++ "/extract-text", f⟩] := by
  cases h : s.file with
  | none => rw [performOCR_eq_of_none api s o h]
  | some f =>
    cases o with
    | networkError => rw [performOCR_eq_of_net api s f h]
    | resp ok t e =>
      cases ok
      · rw [performOCR_eq_of_fail api s f t e h]
      · rw [performOCR_eq_of_ok api s f t e h]

/-! ### Claim theorems -/

/-- C2: `validateAndSetFile` accepts a file exactly when its declared media
type is one of image/png, image/jpeg, image/bmp, image/tiff or
application/pdf; any other type is rejected with the unsupported-format
alert, the state is unchanged, and a rejected file is never carried by any
request `performOCR` issues. -/
theorem validate_accepts_exactly_valid_types :
    validTypes = ["image/png", "image/jpeg", "application/pdf",
      "image/bmp", "image/tiff"] ∧
    (∀ s f, f.type ∈ validTypes →
      (validateAndSetFile s f).state.file = some f ∧
      (validateAndSetFile s f).alert = none) ∧
    (∀ s f, f.type ∉ validTypes →
      (validateAndSetFile s f).state = s ∧
      (validateAndSetFile s f).alert = some unsupportedAlertMsg) ∧
    (∀ api s f o, f.type ∉ validTypes → s.file ≠ some f →
      ∀ req ∈ (performOCR api (validateAndSetFile s f).state o).requests,
        req.fileField ≠ f) := by
  refine ⟨rfl, ?_, ?_, ?_⟩
  · intro s f h
    rw [validateAndSetFile_of_mem s f h]
    exact ⟨rfl, rfl⟩
  · intro s f h
    rw [validateAndSetFile_of_not_mem s f h]
    exact ⟨rfl, rfl⟩
  · intro api s f o h hne req hreq
    rw [validateAndSetFile_of_not_mem s f h] at hreq
    rw [performOCR_requests_eq api s o] at hreq
    cases hsf : s.file with
    | none => rw [hsf] at hreq; cases hreq
    | some g =>
      rw [hsf] at hreq
      have hg : req = ⟨"POST", api ++ "/extract-text", g⟩ :=
        List.mem_singleton.mp hreq
      subst hg
      intro hgf
      exact hne (hsf.trans (congrArg some hgf))

/-- C2 witness: a PNG file is accepted and selected; an `.exe` media type is
rejected and the state is unchanged. -/
theorem validate_accepts_exactly_valid_types_witness :
    ("image/png" ∈ validTypes ∧
      (validateAndSetFile ⟨none, "", false, 0⟩
          ⟨"a.png", "image/png", 1⟩).state.file =
        some ⟨"a.png", "image/png", 1⟩) ∧
    ("application/x-msdownload" ∉ validTypes ∧
      (validateAndSetFile ⟨none, "", false, 0⟩
          ⟨"a.exe", "application/x-msdownload", 2⟩).state =
        ⟨none, "", false, 0⟩) :=
  ⟨⟨by decide,
      (validate_accepts_exactly_valid_types.2.1 ⟨none, "", false, 0⟩
          ⟨"a.png", "image/png", 1⟩ (by decide)).1⟩,
    ⟨by decide,
      (validate_accepts_exactly_valid_types.2.2.1 ⟨none, "", false, 0⟩
          ⟨"a.exe", "application/x-msdownload", 2⟩ (by decide)).1⟩⟩

/-- C3: on a successful extraction response, `performOCR` sets the displayed
extracted text to exactly the `text` field of the JSON response — the empty
string included — and emits no error toast. -/
theorem performOCR_success_sets_exact_text :
    ∀ api s f t e, s.file = some f →
      (performOCR api s (FetchOutcome.resp true t e)).state.extractedText = t ∧
      (performOCR api s (FetchOutcome.resp true t e)).toast = none := by
  intro api s f t e h
  rw [performOCR_eq_of_ok api s f t e h]
  exact ⟨rfl, rfl⟩

/-- C3 witness: a successful response whose `text` field is the empty string
yields extracted text `""` and no toast. -/
theorem performOCR_success_sets_exact_text_witness :
    ((⟨some ⟨"a.png", "image/png", 1⟩, "old", true, 0⟩ : AppState).file =
      some ⟨"a.png", "image/png", 1⟩) ∧
    (performOCR "http://localhost:8000"
        ⟨some ⟨"a.png", "image/png", 1⟩, "old", true, 0⟩
        (FetchOutcome.resp true "" "")).state.extractedText = "" ∧
    (performOCR "http://localhost:8000"
        ⟨some ⟨"a.png", "image/png", 1⟩, "old", true, 0⟩
        (FetchOutcome.resp true "" "")).toast = none :=
  ⟨rfl,
    (performOCR_success_sets_exact_text "http://localhost:8000" _
        ⟨"a.png", "image/png", 1⟩ "" "" rfl).1,
    (performOCR_success_sets_exact_text "http://localhost:8000" _
        ⟨"a.png", "image/png", 1⟩ "" "" rfl).2⟩

/-- C4 counterexample: two fatal errors of distinct categories — an
`UnsupportedFormat` error body and an `InternalError` error body — produce
the identical generic toast message, so no distinct per-category message is
rendered. -/
theorem performOCR_fatal_categories_not_distinct :
    (performOCR "http://localhost:8000"
        ⟨some ⟨"doc.pdf", "application/pdf", 0⟩, "prev", true, 0⟩
        (FetchOutcome.resp false "" "UnsupportedFormat")).toast =
      (performOCR "http://localhost:8000"
          ⟨some ⟨"doc.pdf", "application/pdf", 0⟩, "prev", true, 0⟩
          (FetchOutcome.resp false "" "InternalError")).toast ∧
    (performOCR "http://localhost:8000"
        ⟨some ⟨"doc.pdf", "application/pdf", 0⟩, "prev", true, 0⟩
        (FetchOutcome.resp false "" "UnsupportedFormat")).toast =
      some ocrErrorToastMsg ∧
    "UnsupportedFormat" ≠ "InternalError" :=
  ⟨rfl, rfl, by decide⟩

/-- C4 amended: every failed extraction call — network error or non-ok HTTP
status, whatever the server's error category — produces the one generic
error toast, and the previously displayed extracted text is left
unchanged. -/
theorem performOCR_failure_generic_toast_text_unchanged :
    ∀ api s f o, s.file = some f →
      (o = FetchOutcome.networkError ∨ ∃ t e, o = FetchOutcome.resp false t e) →
      (performOCR api s o).toast = some ocrErrorToastMsg ∧
      (performOCR api s o).state.extractedText = s.extractedText := by
  intro api s f o h ho
  rcases ho with rfl | ⟨t, e, rfl⟩
  · rw [performOCR_eq_of_net api s f h]
    exact ⟨rfl, rfl⟩
  · rw [performOCR_eq_of_fail api s f t e h]
    exact ⟨rfl, rfl⟩

/-- C4 witness: a non-ok response with an `UnsupportedFormat` error body
yields the generic toast and leaves the previous text `"prev"` in place. -/
theorem performOCR_failure_generic_toast_text_unchanged_witness :
    ((⟨some ⟨"doc.pdf", "application/pdf", 0⟩, "prev", true, 0⟩ : AppState).file =
      some ⟨"doc.pdf", "application/pdf", 0⟩) ∧
    (performOCR "http://localhost:8000"
        ⟨some ⟨"doc.pdf", "application/pdf", 0⟩, "prev", true, 0⟩
        (FetchOutcome.resp false "" "UnsupportedFormat")).toast =
      some ocrErrorToastMsg ∧
    (performOCR "http://localhost:8000"
        ⟨some ⟨"doc.pdf", "application/pdf", 0⟩, "prev", true, 0⟩
        (FetchOutcome.resp false "" "UnsupportedFormat")).state.extractedText =
      "prev" :=
  ⟨rfl,
    (performOCR_failure_generic_toast_text_unchanged "http://localhost:8000" _
        ⟨"doc.pdf", "application/pdf", 0⟩ _ rfl (Or.inr ⟨"", "UnsupportedFormat", rfl⟩) |>.1),
    (performOCR_failure_generic_toast_text_unchanged "http://localhost:8000" _
        ⟨"doc.pdf", "application/pdf", 0⟩ _ rfl (Or.inr ⟨"", "UnsupportedFormat", rfl⟩) |>.2)⟩

/-- C5: `performOCR` issues exactly one POST request to `/extract-text`
carrying the selected file in the form data, and no request at all when no
file is selected. -/
theorem performOCR_single_request :
    ∀ api s o,
      (s.file = none → (performOCR api s o).requests = []) ∧
      (∀ f, s.file = some f →
        (performOCR api s o).requests =
          [⟨"POST", api ++ "/extract-text", f⟩] ∧
        (performOCR api s o).requests.length = 1) := by
  intro api s o
  constructor
  · intro h
    rw [performOCR_requests_eq api s o, h]
  · intro f h
    rw [performOCR_requests_eq api s o, h]
    exact ⟨rfl, rfl⟩

/-- C5 witness: with a selected PNG the single issued request is the POST to
`/extract-text` carrying that file; with no file no request is issued. -/
theorem performOCR_single_request_witness :
    ((⟨none, "", false, 0⟩ : AppState).file = none ∧
      (performOCR "http://localhost:8000" ⟨none, "", false, 0⟩
          FetchOutcome.networkError).requests = []) ∧
    ((⟨some ⟨"a.png", "image/png", 1⟩, "", true, 0⟩ : AppState).file =
        some ⟨"a.png", "image/png", 1⟩ ∧
      (performOCR "http://localhost:8000"
          ⟨some ⟨"a.png", "image/png", 1⟩, "", true, 0⟩
          FetchOutcome.networkError).requests =
        [⟨"POST", "http://localhost:8000" ++ "/extract-text",
          ⟨"a.png", "image/png", 1⟩⟩]) :=
  ⟨⟨rfl,
      (performOCR_single_request "http://localhost:8000" ⟨none, "", false, 0⟩
          FetchOutcome.networkError).1 rfl⟩,
    ⟨rfl,
      ((performOCR_single_request "http://localhost:8000"
          ⟨some ⟨"a.png", "image/png", 1⟩, "", true, 0⟩
          FetchOutcome.networkError).2 ⟨"a.png", "image/png", 1⟩ rfl).1⟩⟩

/-- C9: when `validateAndSetFile` accepts a file it also resets the
extracted text to the empty string (touching nothing else but the selected
file); when it rejects one it changes neither the selected file nor the
extracted text and only raises the alert. -/
theorem validate_frame_effects :
    ∀ s f,
      (f.type ∈ validTypes →
        (validateAndSetFile s f).state =
          { s with file := some f, extractedText := "" } ∧
        (validateAndSetFile s f).alert = none) ∧
      (f.type ∉ validTypes →
        (validateAndSetFile s f).state.file = s.file ∧
        (validateAndSetFile s f).state.extractedText = s.extractedText ∧
        (validateAndSetFile s f).state = s ∧
        (validateAndSetFile s f).alert = some unsupportedAlertMsg) := by
  intro s f
  constructor
  · intro h
    rw [validateAndSetFile_of_mem s f h]
    exact ⟨rfl, rfl⟩
  · intro h
    rw [validateAndSetFile_of_not_mem s f h]
    exact ⟨rfl, rfl, rfl, rfl⟩

/-- C9 witness: accepting a JPEG over previous text `"old"` clears the text;
rejecting a `text/plain` file leaves file and text as they were. -/
theorem validate_frame_effects_witness :
    ("image/jpeg" ∈ validTypes ∧
      (validateAndSetFile ⟨none, "old", false, 0⟩
          ⟨"b.jpg", "image/jpeg", 3⟩).state.extractedText = "") ∧
    ("text/plain" ∉ validTypes ∧
      (validateAndSetFile ⟨none, "old", false, 0⟩
          ⟨"b.txt", "text/plain", 4⟩).state.extractedText = "old") :=
  ⟨⟨by decide, by
      rw [((validate_frame_effects ⟨none, "old", false, 0⟩
          ⟨"b.jpg", "image/jpeg", 3⟩).1 (by decide)).1]⟩,
    ⟨by decide,
      ((validate_frame_effects ⟨none, "old", false, 0⟩
          ⟨"b.txt", "text/plain", 4⟩).2 (by decide)).2.1⟩⟩

/-- C6: the displayed progress is a pure client-side simulation — a 500 ms
timer adds an increment of `r + 1` with `1 ≤ r + 1 ≤ 10` whenever the value
is below 95 and keeps it otherwise; the value starts at 0 when loading
begins and is set to 100 when loading ends, independent of any server-side
progress. -/
theorem progress_simulated_animation :
    progressIntervalMs = 500 ∧
    progressOnLoadingStart = 0 ∧
    progressOnLoadingEnd = 100 ∧
    (∀ p r, r < 10 → p < 95 →
      progressTick p r = p + (r + 1) ∧ 1 ≤ r + 1 ∧ r + 1 ≤ 10) ∧
    (∀ p r, 95 ≤ p → progressTick p r = p) := by
  refine ⟨rfl, rfl, rfl, ?_, ?_⟩
  · intro p r hr hp
    refine ⟨?_, Nat.le_add_left 1 r, by omega⟩
    unfold progressTick
    rw [if_neg (by omega)]
    omega
  · intro p r hp
    unfold progressTick
    rw [if_pos hp]

/-- C6 witness: a tick at 50 with random draw 6 advances to 57; a tick at 95
keeps 95. -/
theorem progress_simulated_animation_witness :
    (6 < 10 ∧ 50 < 95 ∧ progressTick 50 6 = 50 + (6 + 1)) ∧
    (95 ≤ 95 ∧ progressTick 95 9 = 95) :=
  ⟨⟨by decide, by decide,
      (progress_simulated_animation.2.2.2.1 50 6 (by decide) (by decide)).1⟩,
    ⟨by decide, progress_simulated_animation.2.2.2.2 95 9 (by decide)⟩⟩

theorem foldl_progressTick_le :
    ∀ (rs : List Nat) (p : Nat), (∀ r ∈ rs, r < 10) → p ≤ 104 →
      List.foldl progressTick p rs ≤ 104 := by
  intro rs
  induction rs with
  | nil => intro p _ hp; exact hp
  | cons r rest ih =>
    intro p hr hp
    rw [List.foldl_cons]
    refine ih (progressTick p r) (fun x hx => hr x (List.mem_cons_of_mem r hx)) ?_
    have hr10 : r < 10 := hr r (List.mem_cons_self r rest)
    unfold progressTick
    split <;> omega

theorem foldl_progressTick_fixed :
    ∀ (rs : List Nat) (p : Nat), 95 ≤ p → List.foldl progressTick p rs = p := by
  intro rs
  induction rs with
  | nil => intro p _; rfl
  | cons r rest ih =>
    intro p hp
    rw [List.foldl_cons]
    have h : progressTick p r = p := by unfold progressTick; rw [if_pos hp]
    rw [h]
    exact ih p hp

theorem foldl_progressTick_replicate_zero :
    ∀ (n p : Nat), p + n ≤ 95 →
      List.foldl progressTick p (List.replicate n 0) = p + n := by
  intro n
  induction n with
  | zero => intro p _; rfl
  | succ m ih =>
    intro p hp
    rw [List.replicate_succ, List.foldl_cons]
    have h : progressTick p 0 = p + 1 := by
      unfold progressTick
      rw [if_neg (by omega)]
    rw [h, ih (p + 1) (by omega)]
    omega

/-- C8: across any sequence of ticks started from 0, the progress value
never exceeds 104; every value from 95 through 104 is reachable (so values
above 100 occur); once the value is at least 95 further ticks keep it
fixed; and when loading ends the value is set to 100. -/
theorem progress_bounded_and_overshoot_reachable :
    (∀ rs : List Nat, (∀ r ∈ rs, r < 10) →
      List.foldl progressTick 0 rs ≤ 104) ∧
    (∀ v, 95 ≤ v → v ≤ 104 →
      ∃ rs : List Nat, (∀ r ∈ rs, r < 10) ∧
        List.foldl progressTick 0 rs = v) ∧
    (∀ (p : Nat) (rs : List Nat), 95 ≤ p →
      List.foldl progressTick p rs = p) ∧
    progressOnLoadingEnd = 100 := by
  refine ⟨fun rs h => foldl_progressTick_le rs 0 h (by omega), ?_,
    fun p rs hp => foldl_progressTick_fixed rs p hp, rfl⟩
  intro v h95 h104
  refine ⟨List.replicate 94 0 ++ [v - 95], ?_, ?_⟩
  · intro r hr
    rcases List.mem_append.mp hr with h | h
    · rw [List.eq_of_mem_replicate h]; omega
    · rw [List.mem_singleton.mp h]; omega
  · rw [List.foldl_append]
    rw [foldl_progressTick_replicate_zero 94 0 (by omega)]
    show progressTick 94 (v - 95) = v
    unfold progressTick
    rw [if_neg (by omega)]
    omega

/-- C8 witness: two maximal ticks stay at or below 104, and the overshoot
value 104 itself is reachable from 0. -/
theorem progress_bounded_and_overshoot_reachable_witness :
    ((∀ r ∈ [9, 9, 9], r < 10) ∧
      List.foldl progressTick 0 [9, 9, 9] ≤ 104) ∧
    (95 ≤ 104 ∧ 104 ≤ 104 ∧
      ∃ rs : List Nat, (∀ r ∈ rs, r < 10) ∧
        List.foldl progressTick 0 rs = 104) :=
  ⟨⟨by decide, progress_bounded_and_overshoot_reachable.1 [9, 9, 9] (by decide)⟩,
    ⟨by decide, by decide,
      progress_bounded_and_overshoot_reachable.2.1 104 (by decide) (by decide)⟩⟩

/-- C7: the Dockerfile installs exactly the Korean and English tesseract
language packs — matching the default configuration of Korean plus
English — and installs poppler (poppler-utils) for PDF rasterization. -/
theorem environment_language_packs_and_poppler :
    installedLanguagePacks = ["kor", "eng"] ∧
    "poppler-utils" ∈ aptInstalledPackages := by
  constructor
  · rfl
  · decide

theorem handlePaste_cons (s : AppState) (ts : Nat) (it : ClipboardItem)
    (rest : List ClipboardItem) :
    handlePaste s ts (it :: rest) =
      if typeHasImage it.type then
        match it.file with
        | some b => validateAndSetFile s (mkPastedFile ts b)
        | none => handlePaste s ts rest
      else handlePaste s ts rest := rfl

theorem handlePaste_skip :
    ∀ (s : AppState) (ts : Nat) (pre l : List ClipboardItem),
      (∀ j ∈ pre, typeHasImage j.type = false ∨ j.file = none) →
      handlePaste s ts (pre ++ l) = handlePaste s ts l := by
  intro s ts pre
  induction pre with
  | nil => intro l _; rfl
  | cons j pre ih =>
    intro l hpre
    have hrest := fun x hx => hpre x (List.mem_cons_of_mem j hx)
    rw [List.cons_append, handlePaste_cons]
    cases hq : typeHasImage j.type with
    | false =>
      rw [if_neg (by simp [hq])]
      exact ih l hrest
    | true =>
      have hjf : j.file = none := by
        rcases hpre j (List.mem_cons_self j pre) with hjt | hjf
        · rw [hq] at hjt; cases hjt
        · exact hjf
      rw [if_pos rfl, hjf]
      exact ih l hrest

/-- C10 counterexample: a paste whose first image-typed item has a null
`getAsFile()` (a non-file clipboard entry) and whose second image item
carries a JPEG blob ends up selecting a file built from the SECOND item —
the handler does not stop at the first item whose type contains
`"image"`. -/
theorem handlePaste_not_only_first_image_item :
    typeHasImage "image/png" = true ∧
    (handlePaste ⟨none, "stale", false, 0⟩ 0
        [⟨"image/png", none⟩, ⟨"image/jpeg", some ⟨"image/jpeg", 7⟩⟩]).state.file =
      some ⟨"pasted_image_0.png", "image/jpeg", 7⟩ := by
  constructor
  · decide
  · decide

/-- C10 amended: the paste handler uses the first clipboard item whose type
contains `"image"` AND whose `getAsFile()` yields a file (image-typed items
with a null file are skipped and later items considered); it wraps that
blob in a `File` named `pasted_image_<timestamp>.png` that preserves the
blob's own MIME type, so acceptance by `validateAndSetFile` is decided
solely by that MIME type and not by the `.png` name. -/
theorem handlePaste_first_available_image_item :
    ∀ (s : AppState) (ts : Nat) (pre : List ClipboardItem)
      (it : ClipboardItem) (b : Blob) (rest : List ClipboardItem),
      (∀ j ∈ pre, typeHasImage j.type = false ∨ j.file = none) →
      typeHasImage it.type = true → it.file = some b →
      handlePaste s ts (pre ++ it :: rest) =
        validateAndSetFile s (mkPastedFile ts b) ∧
      (mkPastedFile ts b).type = b.type ∧
      (mkPastedFile ts b).name = "pasted_image_" ++ toString ts ++ ".png" ∧
      ((validateAndSetFile s (mkPastedFile ts b)).alert = none ↔
        b.type ∈ validTypes) := by
  intro s ts pre it b rest hpre hit hb
  refine ⟨?_, rfl, rfl, ?_⟩
  · rw [handlePaste_skip s ts pre (it :: rest) hpre]
    rw [handlePaste_cons, if_pos hit, hb]
  · constructor
    · intro h
      by_contra hmem
      rw [validateAndSetFile_of_not_mem s (mkPastedFile ts b) hmem] at h
      cases h
    · intro hmem
      rw [validateAndSetFile_of_mem s (mkPastedFile ts b) hmem]

/-- C10 amended witness: with a leading non-image text item, a pasted PNG
blob is wrapped, accepted, and handled by `validateAndSetFile`. -/
theorem handlePaste_first_available_image_item_witness :
    (∀ j ∈ ([⟨"text/plain", none⟩] : List ClipboardItem),
      typeHasImage j.type = false ∨ j.file = none) ∧
    typeHasImage "image/png" = true ∧
    handlePaste ⟨none, "", false, 0⟩ 5
        ([⟨"text/plain", none⟩] ++ [⟨"image/png", some ⟨"image/png", 9⟩⟩]) =
      validateAndSetFile ⟨none, "", false, 0⟩ (mkPastedFile 5 ⟨"image/png", 9⟩) ∧
    (mkPastedFile 5 ⟨"image/png", 9⟩).type = "image/png" :=
  ⟨by decide, by decide,
    (handlePaste_first_available_image_item ⟨none, "", false, 0⟩ 5
        [⟨"text/plain", none⟩] ⟨"image/png", some ⟨"image/png", 9⟩⟩
        ⟨"image/png", 9⟩ [] (by decide) (by decide) rfl).1,
    (handlePaste_first_available_image_item ⟨none, "", false, 0⟩ 5
        [⟨"text/plain", none⟩] ⟨"image/png", some ⟨"image/png", 9⟩⟩
        ⟨"image/png", 9⟩ [] (by decide) (by decide) rfl).2.1⟩

/-- Modelled from the spec: the text one page outcome contributes to the
aggregation — its recognized text on success, the empty string on a
rasterization or OCR failure (spec §4.4). -/
def outcomeText : PageOutcome → String
  | .ok t => t
  | .rasterFail => ""
  | .ocrFail => ""

theorem runPages_map_contribution :
    ∀ (os : List PageOutcome) (i : Nat),
      (runPages i os).map pageContribution = os.map outcomeText := by
  intro os
  induction os with
  | nil => intro i; rfl
  | cons o rest ih =>
    intro i
    show (runPage i o :: runPages (i + 1) rest).map pageContribution = _
    rw [List.map_cons, List.map_cons, ih (i + 1)]
    congr 1
    cases o <;> rfl

/-- C1: when page `k` of an N-page document fails its rasterization or OCR
while every other page succeeds, the orchestrator still returns success and
its aggregated text is the page texts in index order joined by single
newlines with page `k` replaced by the empty segment; in particular a
2-page document OCRing to "Hello" and "World" aggregates to
"Hello\nWorld". -/
theorem partial_failure_aggregation :
    (∀ (texts : List String) (k : Nat) (fail : PageOutcome),
      k < texts.length →
      (fail = PageOutcome.rasterFail ∨ fail = PageOutcome.ocrFail) →
      orchestrate Classified.pdfDocument
          (RasterOutcome.pages ((texts.map PageOutcome.ok).set k fail)) =
        Except.ok
          ⟨runPages 0 ((texts.map PageOutcome.ok).set k fail),
            String.intercalate "\n" (texts.set k "")⟩) ∧
    orchestrate Classified.pdfDocument
        (RasterOutcome.pages [PageOutcome.ok "Hello", PageOutcome.ok "World"]) =
      Except.ok ⟨[⟨0, "Hello", true⟩, ⟨1, "World", true⟩], "Hello\nWorld"⟩ := by
  constructor
  · intro texts k fail _hk hfail
    have hagg : aggregate (runPages 0 ((texts.map PageOutcome.ok).set k fail)) =
        String.intercalate "\n" (texts.set k "") := by
      unfold aggregate
      rw [runPages_map_contribution, List.map_set]
      have hft : outcomeText fail = "" := by rcases hfail with rfl | rfl <;> rfl
      rw [hft, List.map_map]
      have hco : outcomeText ∘ PageOutcome.ok = id := funext fun t => rfl
      rw [hco, List.map_id]
    simp only [orchestrate, hagg]
  · rfl

/-- C1 witness: a 3-page document whose middle page's OCR fails aggregates
the remaining texts with the failed page as an empty segment, without
aborting. -/
theorem partial_failure_aggregation_witness :
    1 < (["A", "B", "C"] : List String).length ∧
    orchestrate Classified.pdfDocument
        (RasterOutcome.pages
          (((["A", "B", "C"] : List String).map PageOutcome.ok).set 1
            PageOutcome.ocrFail)) =
      Except.ok
        ⟨runPages 0
            (((["A", "B", "C"] : List String).map PageOutcome.ok).set 1
              PageOutcome.ocrFail),
          String.intercalate "\n" ((["A", "B", "C"] : List String).set 1 "")⟩ :=
  ⟨by decide,
    partial_failure_aggregation.1 ["A", "B", "C"] 1 PageOutcome.ocrFail
      (by decide) (Or.inr rfl)⟩

end VisionOCR
